import Mathlib

/-!
Shallow embedding of `src/board.rs` from the Chess-Engine repository:
the packed `Piece` encoding, the validated `Coordinate` type, and their
constructors. Machine integers (`u8`) are modelled as `Nat` with explicit
`% 256` where the source's arithmetic could wrap; fallible operations
return `Except`, and the `panic!` branch of `Piece::data` is modelled as
`Except.error`.
-/

namespace ChessEngine

/-- `enum Error { OutOfBoundsAxis, OutOfBoundsIndex }` (board.rs lines 50-53). -/
inductive Error where
  | OutOfBoundsAxis
  | OutOfBoundsIndex
deriving DecidableEq, Repr

deriving instance DecidableEq for Except

/-- `enum Team { White = 0, Black = 1 }` (board.rs line 58). -/
inductive Team where
  | White
  | Black
deriving DecidableEq, Repr, Fintype

/-- The discriminant of a `Team`, i.e. the value of `team as u8`. -/
def Team.val : Team → Nat
  | Team.White => 0
  | Team.Black => 1

/-- `const MASK_TEAM: u8 = 0b1000` (board.rs line 61). -/
def MASK_TEAM : Nat := 0b1000

/-- `const SHIFT_TEAM: u8 = 3` (board.rs line 64). -/
def SHIFT_TEAM : Nat := 3

/-- `enum Chessman { King = 0, Queen = 1, Bishop = 2, Knight = 3, Rook = 4, Pawn = 5 }`
(board.rs line 73). -/
inductive Chessman where
  | King
  | Queen
  | Bishop
  | Knight
  | Rook
  | Pawn
deriving DecidableEq, Repr, Fintype

/-- The discriminant of a `Chessman`, i.e. the value of `chessman as u8`. -/
def Chessman.val : Chessman → Nat
  | Chessman.King => 0
  | Chessman.Queen => 1
  | Chessman.Bishop => 2
  | Chessman.Knight => 3
  | Chessman.Rook => 4
  | Chessman.Pawn => 5

/-- `const MASK_CHESSMAN: u8 = 0b111` (board.rs line 76). -/
def MASK_CHESSMAN : Nat := 0b111

/-- `struct Piece { value: u8 }` (board.rs lines 83-85). -/
structure Piece where
  value : Nat
deriving DecidableEq, Repr

/-- `Piece::MASK_UNOCCUPIED = 0b11110000` (board.rs line 88). -/
def Piece.MASK_UNOCCUPIED : Nat := 0b11110000

/-- `Piece::new` (board.rs lines 91-96): packs `Some((team, chessman))` as
`(team as u8) << SHIFT_TEAM | chessman as u8`, and `None` as `MASK_UNOCCUPIED`. -/
def Piece.new (value : Option (Team × Chessman)) : Piece :=
  match value with
  | some (team, chessman) => Piece.mk ((team.val <<< SHIFT_TEAM) ||| chessman.val)
  | none => Piece.mk Piece.MASK_UNOCCUPIED

/-- `Piece::data` (board.rs lines 99-121). The `panic!("Invalid Chessman found.")`
branch is modelled as `Except.error`; normal returns are `Except.ok`. -/
def Piece.data (p : Piece) : Except String (Option (Team × Chessman)) :=
  if p.value &&& Piece.MASK_UNOCCUPIED ≠ 0 then
    Except.ok none
  else
    let team := if p.value &&& MASK_TEAM = 0 then Team.White else Team.Black
    match MASK_CHESSMAN &&& p.value with
    | 0 => Except.ok (some (team, Chessman.King))
    | 1 => Except.ok (some (team, Chessman.Queen))
    | 2 => Except.ok (some (team, Chessman.Bishop))
    | 3 => Except.ok (some (team, Chessman.Knight))
    | 4 => Except.ok (some (team, Chessman.Rook))
    | 5 => Except.ok (some (team, Chessman.Pawn))
    | _ => Except.error "Invalid Chessman found."

/-- `impl Default for Piece` (board.rs lines 124-128): the all-zero byte. -/
def Piece.default : Piece := Piece.mk 0

/-- `struct Coordinate { value: u8 }` (board.rs lines 131-134). -/
structure Coordinate where
  value : Nat
deriving DecidableEq, Repr

/-- `const BOARD_LENGTH: usize = 8` (board.rs line 149). -/
def BOARD_LENGTH : Nat := 8

/-- `const NUM_TILES: usize = BOARD_LENGTH * BOARD_LENGTH` (board.rs line 152). -/
def NUM_TILES : Nat := BOARD_LENGTH * BOARD_LENGTH

/-- `Coordinate::rank` (board.rs lines 138-140): `value / BOARD_LENGTH`. -/
def Coordinate.rank (c : Coordinate) : Nat :=
  c.value / BOARD_LENGTH

/-- `Coordinate::file` (board.rs lines 143-145): `value % BOARD_LENGTH`. -/
def Coordinate.file (c : Coordinate) : Nat :=
  c.value % BOARD_LENGTH

/-- `impl TryFrom<(u8, u8)> for Coordinate` (board.rs lines 154-163): the guard
is `rank < 8 && file < 8`; the stored value is `rank * BOARD_LENGTH as u8 + file`,
whose `u8` arithmetic wraps modulo 256. -/
def Coordinate.tryFromRankFile (rank file : Nat) : Except Error Coordinate :=
  if rank < 8 ∧ file < 8 then
    Except.ok (Coordinate.mk ((rank * BOARD_LENGTH + file) % 256))
  else
    Except.error Error.OutOfBoundsAxis

/-- `impl TryFrom<u8> for Coordinate` (board.rs lines 165-175): accepts
`value < NUM_TILES` and stores it verbatim. -/
def Coordinate.tryFromIndex (value : Nat) : Except Error Coordinate :=
  if value < NUM_TILES then
    Except.ok (Coordinate.mk value)
  else
    Except.error Error.OutOfBoundsIndex

/-- All thirteen values of `Option<(Team, Chessman)>`: the twelve occupied
combinations and `None`. -/
def allOccupants : List (Option (Team × Chessman)) :=
  none ::
    ([Team.White, Team.Black].flatMap fun t =>
      [Chessman.King, Chessman.Queen, Chessman.Bishop,
        Chessman.Knight, Chessman.Rook, Chessman.Pawn].map fun c => some (t, c))

/-- Claim C1: piece encode/decode round-trips: for every team and every chessman,
`Piece::new(Some((team, chessman))).data()` is `Some((team, chessman))`, and
`Piece::new(None).data()` is `None`. The single quantifier over
`Option (Team × Chessman)` covers the twelve occupied combinations and `None`. -/
theorem piece_round_trip :
    ∀ o : Option (Team × Chessman), (Piece.new o).data = Except.ok o := by
  decide

set_option maxRecDepth 4000

/-- Helper: over the whole `u8` range, `Piece::data` decodes to `None` exactly when
at least one of the four high occupancy bits of the stored byte is set. -/
theorem piece_data_none_iff_helper :
    ∀ v < 256, ((Piece.mk v).data = Except.ok none ↔ v &&& Piece.MASK_UNOCCUPIED ≠ 0) := by
  decide

/-- Claim C5: `Piece::data()` returns `None` iff at least one of the top 4 bits of
the stored byte is set; `Piece::new(None)` stores the canonical empty encoding
`0b11110000`; and `Piece::new(Some((team, chessman)))` stores
`(team as u8) << 3 | chessman as u8`, whose top four bits are clear. -/
theorem piece_occupancy_spec (v : Nat) (hv : v < 256) :
    ((Piece.mk v).data = Except.ok none ↔ v &&& Piece.MASK_UNOCCUPIED ≠ 0) ∧
    (Piece.new none).value = 0b11110000 ∧
    (∀ t c, (Piece.new (some (t, c))).value = (Team.val t <<< 3) ||| Chessman.val c ∧
      (Piece.new (some (t, c))).value &&& Piece.MASK_UNOCCUPIED = 0) := by
  refine ⟨?_, by decide, by decide⟩
  exact piece_data_none_iff_helper v hv

/-- Witness for C5 at the concrete byte 0b11110000: decoding it yields `None`. -/
theorem piece_occupancy_spec_witness :
    ((Piece.mk 0b11110000).data = Except.ok none ↔ 0b11110000 &&& Piece.MASK_UNOCCUPIED ≠ 0) ∧
    (Piece.new none).value = 0b11110000 ∧
    (∀ t c, (Piece.new (some (t, c))).value = (Team.val t <<< 3) ||| Chessman.val c ∧
      (Piece.new (some (t, c))).value &&& Piece.MASK_UNOCCUPIED = 0) :=
  piece_occupancy_spec 0b11110000 (by decide)

/-- Claim C6: `Piece::default()` stores the all-zero byte and decodes to
`Some((White, King))`, which is distinct from the empty state
`Piece::new(None).data() == None`. -/
theorem piece_default_spec :
    Piece.default.value = 0 ∧
    Piece.default.data = Except.ok (some (Team.White, Chessman.King)) ∧
    (Piece.new none).data = Except.ok none ∧
    Piece.default.data ≠ (Piece.new none).data := by
  decide

/-- Claim C7: for every argument of the public constructor `Piece::new`, the
`panic!("Invalid Chessman found.")` branch of `Piece::data` is unreachable
(`data` returns `Except.ok`), and whenever the occupancy bits are clear the low
3 bits of the stored byte are in `0..=5`. -/
theorem piece_panic_unreachable :
    ∀ o : Option (Team × Chessman),
      (∃ r, (Piece.new o).data = Except.ok r) ∧
      ((Piece.new o).value &&& Piece.MASK_UNOCCUPIED = 0 →
        (Piece.new o).value &&& MASK_CHESSMAN < 6) := by
  decide

/-- Claim C10: the `Piece` encoding is injective on its public domain: the
thirteen values of `Option (Team × Chessman)` (listed exhaustively in
`allOccupants`) produce pairwise distinct stored bytes; in particular no
occupied piece's byte equals the empty encoding. -/
theorem piece_new_injective_on_domain :
    (allOccupants.map fun o => (Piece.new o).value).Nodup ∧
    allOccupants.length = 13 ∧
    (∀ o : Option (Team × Chessman), o ∈ allOccupants) ∧
    (∀ t c, (Piece.new (some (t, c))).value ≠ (Piece.new none).value) := by
  decide

/-- Claim C2: `Coordinate::try_from((rank, file))` succeeds iff `rank < 8` and
`file < 8`; on success the stored value is `rank * 8 + file` and the accessors
return the original rank and file; otherwise it returns
`Err(Error::OutOfBoundsAxis)`. The inputs range over `u8`. -/
theorem coordinate_from_rank_file_spec (rank file : Nat)
    (hr : rank < 256) (hf : file < 256) :
    (rank < 8 ∧ file < 8 →
      Coordinate.tryFromRankFile rank file = Except.ok (Coordinate.mk (rank * 8 + file)) ∧
      (Coordinate.mk (rank * 8 + file)).rank = rank ∧
      (Coordinate.mk (rank * 8 + file)).file = file) ∧
    (¬(rank < 8 ∧ file < 8) →
      Coordinate.tryFromRankFile rank file = Except.error Error.OutOfBoundsAxis) := by
  constructor
  · intro h
    refine ⟨?_, ?_, ?_⟩
    · unfold Coordinate.tryFromRankFile BOARD_LENGTH
      rw [if_pos h, Nat.mod_eq_of_lt (by omega)]
    · show (rank * 8 + file) / BOARD_LENGTH = rank
      unfold BOARD_LENGTH
      omega
    · show (rank * 8 + file) % BOARD_LENGTH = file
      unfold BOARD_LENGTH
      omega
  · intro h
    unfold Coordinate.tryFromRankFile
    rw [if_neg h]

/-- Witness for C2 at the concrete corner square `(7, 7)`. -/
theorem coordinate_from_rank_file_spec_witness :
    Coordinate.tryFromRankFile 7 7 = Except.ok (Coordinate.mk 63) ∧
    (Coordinate.mk 63).rank = 7 ∧ (Coordinate.mk 63).file = 7 :=
  (coordinate_from_rank_file_spec 7 7 (by decide) (by decide)).1 ⟨by decide, by decide⟩

/-- Claim C3: `Coordinate::try_from(index)` succeeds iff `index < 64`; on success
the index is stored verbatim, `rank()` is `index / 8` and `file()` is
`index % 8`; for `index ≥ 64` it returns `Err(Error::OutOfBoundsIndex)`. -/
theorem coordinate_from_index_spec (index : Nat) (h : index < 256) :
    (index < 64 →
      Coordinate.tryFromIndex index = Except.ok (Coordinate.mk index) ∧
      (Coordinate.mk index).rank = index / 8 ∧
      (Coordinate.mk index).file = index % 8) ∧
    (64 ≤ index →
      Coordinate.tryFromIndex index = Except.error Error.OutOfBoundsIndex) := by
  constructor
  · intro hlt
    refine ⟨?_, rfl, rfl⟩
    unfold Coordinate.tryFromIndex NUM_TILES BOARD_LENGTH
    rw [if_pos (by omega)]
  · intro hge
    unfold Coordinate.tryFromIndex NUM_TILES BOARD_LENGTH
    rw [if_neg (by omega)]

/-- Witness for C3 at the concrete index 63. -/
theorem coordinate_from_index_spec_witness :
    Coordinate.tryFromIndex 63 = Except.ok (Coordinate.mk 63) ∧
    (Coordinate.mk 63).rank = 63 / 8 ∧ (Coordinate.mk 63).file = 63 % 8 :=
  (coordinate_from_index_spec 63 (by decide)).1 (by decide)

/-- Claim C4: for every `u8` pair with `rank ≥ 8` or `file ≥ 8`,
`Coordinate::try_from((rank, file))` returns `Err(Error::OutOfBoundsAxis)` —
never `Ok` and never `Err(Error::OutOfBoundsIndex)` — even when
`rank * 8 + file` reduced modulo 256 would be below 64: validation is on the
input axes, not on a computed linear index. -/
theorem coordinate_axis_error_priority (rank file : Nat)
    (hr : rank < 256) (hf : file < 256) (h : 8 ≤ rank ∨ 8 ≤ file) :
    Coordinate.tryFromRankFile rank file = Except.error Error.OutOfBoundsAxis ∧
    (∀ c, Coordinate.tryFromRankFile rank file ≠ Except.ok c) ∧
    Coordinate.tryFromRankFile rank file ≠ Except.error Error.OutOfBoundsIndex := by
  have he : Coordinate.tryFromRankFile rank file = Except.error Error.OutOfBoundsAxis := by
    unfold Coordinate.tryFromRankFile
    rw [if_neg (by omega)]
  refine ⟨he, ?_, ?_⟩
  · intro c hc
    rw [he] at hc
    exact Except.noConfusion hc
  · intro hc
    rw [he] at hc
    injection hc with hc
    exact Error.noConfusion hc

/-- Witness for C4 at `(rank, file) = (0, 8)`: the wrapped linear value
`(0 * 8 + 8) % 256 = 8` would be in bounds, yet construction reports
`OutOfBoundsAxis`. -/
theorem coordinate_axis_error_priority_witness :
    (0 * BOARD_LENGTH + 8) % 256 < 64 ∧
    Coordinate.tryFromRankFile 0 8 = Except.error Error.OutOfBoundsAxis :=
  ⟨by decide, (coordinate_axis_error_priority 0 8 (by decide) (by decide)
    (Or.inr (by decide))).1⟩

/-- Claim C8: every `Coordinate` obtainable through the public constructors (the
rank/file conversion or the index conversion, over `u8` inputs) stores a value
below 64, so its rank and file are both below 8. -/
theorem coordinate_invariant (c : Coordinate)
    (h : (∃ rank file, rank < 256 ∧ file < 256 ∧
            Coordinate.tryFromRankFile rank file = Except.ok c) ∨
         (∃ index, index < 256 ∧ Coordinate.tryFromIndex index = Except.ok c)) :
    c.value < 64 ∧ c.rank < 8 ∧ c.file < 8 := by
  have hval : c.value < 64 := by
    rcases h with ⟨rank, file, hr, hf, heq⟩ | ⟨index, hi, heq⟩
    · unfold Coordinate.tryFromRankFile BOARD_LENGTH at heq
      by_cases hg : rank < 8 ∧ file < 8
      · rw [if_pos hg] at heq
        injection heq with heq
        subst heq
        show (rank * 8 + file) % 256 < 64
        omega
      · rw [if_neg hg] at heq
        exact Except.noConfusion heq
    · unfold Coordinate.tryFromIndex NUM_TILES BOARD_LENGTH at heq
      by_cases hg : index < 8 * 8
      · rw [if_pos hg] at heq
        injection heq with heq
        subst heq
        show index < 64
        omega
      · rw [if_neg hg] at heq
        exact Except.noConfusion heq
  refine ⟨hval, ?_, ?_⟩
  · unfold Coordinate.rank BOARD_LENGTH
    omega
  · unfold Coordinate.file BOARD_LENGTH
    omega

/-- Witness for C8 at the coordinate built from index 0. -/
theorem coordinate_invariant_witness :
    (Coordinate.mk 0).value < 64 ∧ (Coordinate.mk 0).rank < 8 ∧
    (Coordinate.mk 0).file < 8 :=
  coordinate_invariant (Coordinate.mk 0) (Or.inr ⟨0, by decide, rfl⟩)

/-- Claim C9: the two construction paths agree: for every `rank < 8` and
`file < 8`, the rank/file conversion and the index conversion applied to
`rank * 8 + file` both succeed and yield the same `Coordinate`. -/
theorem coordinate_paths_agree (rank file : Nat) (hr : rank < 8) (hf : file < 8) :
    Coordinate.tryFromRankFile rank file = Except.ok (Coordinate.mk (rank * 8 + file)) ∧
    Coordinate.tryFromIndex (rank * 8 + file) = Except.ok (Coordinate.mk (rank * 8 + file)) := by
  constructor
  · unfold Coordinate.tryFromRankFile BOARD_LENGTH
    rw [if_pos ⟨hr, hf⟩, Nat.mod_eq_of_lt (by omega)]
  · unfold Coordinate.tryFromIndex NUM_TILES BOARD_LENGTH
    rw [if_pos (by omega)]

/-- Witness for C9 at `(rank, file) = (7, 7)`. -/
theorem coordinate_paths_agree_witness :
    Coordinate.tryFromRankFile 7 7 = Except.ok (Coordinate.mk (7 * 8 + 7)) ∧
    Coordinate.tryFromIndex (7 * 8 + 7) = Except.ok (Coordinate.mk (7 * 8 + 7)) :=
  coordinate_paths_agree 7 7 (by decide) (by decide)

end ChessEngine
